import Mathlib

/-!
Shallow embedding of the reconciliation core of `zabbix-cachet-v3.py`:
the status mapper, the Cachet client operations used by the engine, the
per-entry incident lifecycle engine (`triggers_watcher` loop body), and
the watcher-supervisor decision logic of the `__main__` outer loop.

Python strings are modelled as `String`, Python ints as `Int`/`Nat`,
dictionaries with a fixed key set as structures, absent optional keys as
`Option`, and raised exceptions as `Except PyError`.  HTTP calls against
the Cachet server are modelled as explicit state passing over a
`CachetState` value holding the component and incident tables; the
paginated list endpoints are flattened to plain lists (pagination is
transport plumbing and preserves the scan order).
-/

set_option autoImplicit false

namespace ZabbixCachet

/-! ### Python string primitives

Structural (fuel-free or fuel-bounded) re-implementations of the string
operations the source uses, so that every theorem can be checked by
kernel evaluation. -/

/-- `charsStartWith pat text` is true when `pat` is an initial segment of `text`. -/
def charsStartWith : List Char → List Char → Bool
  | [], _ => true
  | _ :: _, [] => false
  | p :: ps, c :: cs => p == c && charsStartWith ps cs

/-- Occurrence test for `needle` inside `text`, scanning left to right. -/
def charsContain (needle : List Char) : List Char → Bool
  | [] => needle.isEmpty
  | c :: rest => charsStartWith needle (c :: rest) || charsContain needle rest

/-- Python `needle in hay` on strings (the empty needle is contained everywhere). -/
def strContains (hay needle : String) : Bool :=
  charsContain needle.data hay.data

/-- Replace every (non-overlapping, leftmost-first) occurrence of `pat` by `rep`,
with fuel bounding the recursion by the text length. -/
def charsReplaceAux (pat rep : List Char) : Nat → List Char → List Char
  | 0, text => text
  | Nat.succ n, text =>
    match text with
    | [] => []
    | c :: rest =>
      if !pat.isEmpty && charsStartWith pat (c :: rest) then
        rep ++ charsReplaceAux pat rep n ((c :: rest).drop pat.length)
      else
        c :: charsReplaceAux pat rep n rest

def charsReplace (pat rep text : List Char) : List Char :=
  charsReplaceAux pat rep text.length text

/-- Substitute a single `\x7bkey\x7d` placeholder throughout a template. -/
def pyFormatKey (tmpl key val : String) : String :=
  String.mk (charsReplace ("\x7b" ++ key ++ "\x7d").data val.data tmpl.data)

/-- Python `str.format` with keyword arguments, restricted to the plain named
placeholders this program's templates use (no format specs, no escaped braces;
the substituted values never contain placeholder text themselves). -/
def pyFormat (tmpl : String) (subs : List (String × String)) : String :=
  subs.foldl (fun acc kv => pyFormatKey acc kv.1 kv.2) tmpl

def isSpaceChar (c : Char) : Bool :=
  c == ' ' || c == '\t' || c == '\n' || c == '\r'

def dropLeadingWs : List Char → List Char
  | [] => []
  | c :: cs => if isSpaceChar c then dropLeadingWs cs else c :: cs

/-- Python `str.strip()` (ASCII whitespace suffices for this program). -/
def pyStrip (s : String) : String :=
  String.mk ((dropLeadingWs ((dropLeadingWs s.data).reverse)).reverse)

/-! ### Enumerations (lines 29-54 of the source) -/

inductive CachetComponentStatus where
  | OPERATIONAL | PERFORMANCE_ISSUES | PARTIAL_OUTAGE | MAJOR_OUTAGE | UNKNOWN
  deriving DecidableEq

def CachetComponentStatus.value : CachetComponentStatus → Int
  | .OPERATIONAL => 1
  | .PERFORMANCE_ISSUES => 2
  | .PARTIAL_OUTAGE => 3
  | .MAJOR_OUTAGE => 4
  | .UNKNOWN => 5

inductive ZabbixServiceStatus where
  | OK | NOT_CLASSIFIED | INFORMATION | WARNING | AVERAGE | HIGH | DISASTER
  deriving DecidableEq

def ZabbixServiceStatus.value : ZabbixServiceStatus → Int
  | .OK => -1
  | .NOT_CLASSIFIED => 0
  | .INFORMATION => 1
  | .WARNING => 2
  | .AVERAGE => 3
  | .HIGH => 4
  | .DISASTER => 5

inductive CachetIncidentStatus where
  | REPORTED | INVESTIGATING | IDENTIFIED | WATCHING | FIXED
  deriving DecidableEq

def CachetIncidentStatus.value : CachetIncidentStatus → Int
  | .REPORTED => 0
  | .INVESTIGATING => 1
  | .IDENTIFIED => 2
  | .WATCHING => 3
  | .FIXED => 4

/-- Python attribute lookup on the `CachetIncidentStatus` enum class:
`none` models the `AttributeError` raised for a name that is not a member. -/
def CachetIncidentStatus.fromName (s : String) : Option CachetIncidentStatus :=
  if s = "REPORTED" then some .REPORTED
  else if s = "INVESTIGATING" then some .INVESTIGATING
  else if s = "IDENTIFIED" then some .IDENTIFIED
  else if s = "WATCHING" then some .WATCHING
  else if s = "FIXED" then some .FIXED
  else none

/-- `map_zabbix_status_to_cachet_status` (lines 57-67): a dict lookup keyed by
`ZabbixServiceStatus` members with default `UNKNOWN`; `none` stands for any
argument that is not a member of the enum, and the result is the `.value`. -/
def map_zabbix_status_to_cachet_status : Option ZabbixServiceStatus → Int
  | some .OK => CachetComponentStatus.OPERATIONAL.value
  | some .NOT_CLASSIFIED => CachetComponentStatus.UNKNOWN.value
  | some .INFORMATION => CachetComponentStatus.OPERATIONAL.value
  | some .WARNING => CachetComponentStatus.PERFORMANCE_ISSUES.value
  | some .AVERAGE => CachetComponentStatus.PARTIAL_OUTAGE.value
  | some .HIGH => CachetComponentStatus.MAJOR_OUTAGE.value
  | some .DISASTER => CachetComponentStatus.MAJOR_OUTAGE.value
  | none => CachetComponentStatus.UNKNOWN.value

/-! ### Data model -/

/-- A Cachet component as the engine observes it: `id`, `attributes.name`,
the group id read out of `relationships.group.data.id` (0 when absent),
and `attributes.status.value`. -/
structure Component where
  id : Nat
  name : String
  group_id : Nat
  status : Int
  deriving DecidableEq

structure ComponentGroup where
  id : Nat
  name : String
  deriving DecidableEq

/-- A Cachet incident: `id`, `attributes.component_id`, `attributes.name`,
`attributes.message`, `attributes.status.value`. -/
structure Incident where
  id : Nat
  component_id : Nat
  name : String
  message : String
  statusValue : Int
  deriving DecidableEq

/-- The mutable Cachet server state the engine reads and writes. -/
structure CachetState where
  components : List Component
  incidents : List Incident
  deriving DecidableEq

/-- A Zabbix trigger record as returned by `zapi.get_trigger` (with
`expandComment`/`expandDescription`); `priority` already converted by `int(...)`. -/
structure Trigger where
  value : String
  priority : Int
  comments : String
  description : String
  deriving DecidableEq

/-- One element of a Zabbix event's `acknowledges` list. -/
structure Ack where
  name : String
  surname : String
  clock : Int
  message : String
  deriving DecidableEq

/-- A Zabbix event dict; `clock := none` models the key being absent, as in the
mock event the engine synthesizes when `get_event` returns no data. -/
structure ZbxEvent where
  acknowledged : String
  clock : Option Int
  acknowledges : List Ack
  deriving DecidableEq

/-- One entry of the Zabbix-to-Cachet mapping produced by `init_cachet`;
`group_name := none` models the `group_name` key being absent. -/
structure MappingEntry where
  triggerid : Option String
  component_id : Nat
  component_name : String
  group_name : Option String
  deriving DecidableEq

/-- The message templates read from the configuration; the empty string is the
falsy "no template" value, exactly as in the source. -/
structure Config where
  resolving_tmpl : String
  investigating_tmpl : String
  acknowledgement_tmpl : String

/-- Ambient impure inputs of a tick: `fmtClock` models
`datetime.datetime.fromtimestamp(clock, tz=tz).strftime("%b %d, %H:%M")` and
`nowStr` models `datetime.datetime.now(tz=tz).strftime("%b %d, %H:%M")`. -/
structure Env where
  fmtClock : Int → String
  nowStr : String

/-- Exceptions the embedded code can raise. -/
inductive PyError where
  | attributeError (member : String)
  | typeError
  | keyError (key : String)
  | systemExit
  deriving DecidableEq

deriving instance DecidableEq for Except

/-! ### Cachet client operations -/

/-- `Cachet.find_component_by_name` (lines 380-408): scan the paginated
component list for the first record with the requested name, else the
sentinel `\x7b"id": 0, "name": "Does not exist"\x7d` (whose missing
`relationships` reads as group id 0). -/
def find_component_by_name (comps : List Component) (name : String) : Component :=
  match comps.find? (fun c => c.name == name) with
  | some c => c
  | none => ⟨0, "Does not exist", 0, 0⟩

/-- `Cachet.new_components` (lines 410-452): search by name, return the found
record when it is real (`id ≠ 0`) and sits in the requested group, otherwise
POST a new component (the server-assigned id is modelled as max-id + 1).
The third result is true iff a create call was issued. -/
def new_components (comps : List Component) (name : String) (group_id : Nat)
    (status : Int) : Component × List Component × Bool :=
  let found := find_component_by_name comps name
  if found.id ≠ 0 ∧ found.group_id = group_id then
    (found, comps, false)
  else
    let fresh : Component := ⟨(comps.foldl (fun m c => max m c.id) 0) + 1, name, group_id, status⟩
    (fresh, comps ++ [fresh], true)

/-- `Cachet.find_group_by_name` (lines 488-516). -/
def find_group_by_name (groups : List ComponentGroup) (name : String) : ComponentGroup :=
  match groups.find? (fun g => g.name == name) with
  | some g => g
  | none => ⟨0, "Does not exist"⟩

/-- `Cachet.new_components_gr` (lines 518-540): create only when the name
search came back with the `id = 0` sentinel. -/
def new_components_gr (groups : List ComponentGroup) (name : String) :
    ComponentGroup × List ComponentGroup × Bool :=
  let found := find_group_by_name groups name
  if found.id = 0 then
    let fresh : ComponentGroup := ⟨(groups.foldl (fun m g => max m g.id) 0) + 1, name⟩
    (fresh, groups ++ [fresh], true)
  else
    (found, groups, false)

/-- The sentinel record `get_unresolved_incident` returns when no incident
matches (lines 569-576); its dict carries no `component_id` or `message`
keys, which are never read on the sentinel path and are modelled as `0`/`""`. -/
def incidentSentinel : Incident :=
  ⟨0, 0, "Does not exist", "", -1⟩

/-- `Cachet.get_unresolved_incident` (lines 542-576): first incident whose
`component_id` matches and whose message does not contain `"__Resolved__"`;
note that the incident's status is never inspected. -/
def get_unresolved_incident (incs : List Incident) (component_id : Nat) : Incident :=
  match incs.find? (fun inc =>
      inc.component_id == component_id && !(strContains inc.message "__Resolved__")) with
  | some inc => inc
  | none => incidentSentinel

/-- `cachet.get_component(id)["data"]["attributes"]["status"]["value"]`
(lines 667-670); `none` models the component id being unknown to the server,
in which case `_http_get` calls `sys.exit(1)` (lines 301-303). -/
def get_component_status_value (st : CachetState) (component_id : Nat) : Option Int :=
  (st.components.find? (fun c => c.id == component_id)).map Component.status

/-- `Cachet.upd_components` (lines 454-473): read-merge-write of the component
record; an unknown id dies inside `get_component` via `sys.exit(1)`. -/
def upd_components (st : CachetState) (component_id : Nat) (status : Int) :
    Except PyError CachetState :=
  match st.components.find? (fun c => c.id == component_id) with
  | none => .error .systemExit
  | some _ =>
    .ok { st with
          components := st.components.map (fun c =>
            if c.id == component_id then { c with status := status } else c) }

/-- The keyword arguments `triggers_watcher` passes to `Cachet.upd_incident`;
`none` models the keyword being absent from the call. -/
structure IncUpdParams where
  message : Option String
  status : Option Int
  component_id : Option Nat
  component_status : Option Int

/-- The server-side effect of `PUT incidents/<id>` with the given fields. -/
def applyIncUpd (inc : Incident) (p : IncUpdParams) : Incident :=
  { inc with
    message := p.message.getD inc.message,
    statusValue := p.status.getD inc.statusValue }

/-- `Cachet.upd_incident` (lines 605-628): PUT the given fields, then — when a
`component_status` keyword is present — evaluate `params["component_id"]`,
which raises `KeyError` when that keyword was not passed, else update the
component. -/
def upd_incident (st : CachetState) (incident_id : Nat) (p : IncUpdParams) :
    Except PyError CachetState :=
  let st1 : CachetState :=
    { st with
      incidents := st.incidents.map (fun inc =>
        if inc.id == incident_id then applyIncUpd inc p else inc) }
  match p.component_status with
  | none => .ok st1
  | some cs =>
    match p.component_id with
    | none => .error (.keyError "component_id")
    | some cid => upd_components st1 cid cs

def freshIncidentId (incs : List Incident) : Nat :=
  (incs.foldl (fun m inc => max m inc.id) 0) + 1

/-- `Cachet.new_incidents` (lines 578-603): POST the incident (server-assigned
id modelled as max-id + 1), then update the component status — the engine's
only call site always passes both `component_id` and `component_status`. -/
def new_incidents (st : CachetState) (name message : String) (status : Int)
    (component_id : Nat) (component_status : Int) : Except PyError CachetState :=
  let inc : Incident := ⟨freshIncidentId st.incidents, component_id, name, message, status⟩
  let st1 : CachetState := { st with incidents := st.incidents ++ [inc] }
  upd_components st1 component_id component_status

/-! ### Incident lifecycle engine (`triggers_watcher`, lines 631-790) -/

/-- The mock event synthesized at lines 713-715 when `get_event` returned no
data: the dict `\x7b"acknowledged": "0"\x7d`, with no `clock` key. -/
def mockEvent : ZbxEvent :=
  ⟨"0", none, []⟩

/-- The acknowledgment merge loop (lines 718-729), starting from the empty
`inc_msg`: render each acknowledgment through the template and prepend it
unless the rendered block is already a substring of the accumulated message. -/
def ackMergeMsg (cfg : Config) (env : Env) (acks : List Ack) : String :=
  acks.foldl (fun inc_msg msg =>
    let author := msg.name ++ " " ++ msg.surname
    let ack_time := env.fmtClock msg.clock
    let ack_msg := pyFormat cfg.acknowledgement_tmpl
      [("message", msg.message), ("ack_time", ack_time), ("author", author)]
    if !(strContains inc_msg ack_msg) then ack_msg ++ inc_msg else inc_msg) ""

/-- The priority-to-component-status chain (lines 732-737).  The two lower
branches read `PARTIAL_OUTAGE` / `PERFORMANCE_ISSUES` off the
`CachetIncidentStatus` enum, which has no such members, so Python raises
`AttributeError` there. -/
def computeCompStatusCode (priority : Int) : Except PyError Int :=
  if priority ≥ ZabbixServiceStatus.HIGH.value then
    .ok CachetComponentStatus.MAJOR_OUTAGE.value
  else if priority = ZabbixServiceStatus.AVERAGE.value then
    match CachetIncidentStatus.fromName "PARTIAL_OUTAGE" with
    | some m => .ok m.value
    | none => .error (.attributeError "PARTIAL_OUTAGE")
  else
    match CachetIncidentStatus.fromName "PERFORMANCE_ISSUES" with
    | some m => .ok m.value
    | none => .error (.attributeError "PERFORMANCE_ISSUES")

/-- Message composition for an active trigger (lines 739-758), applied to the
message accumulated by the acknowledgment merge.  `zbx_event` is always a
non-empty dict at this point (a real event or the mock), so the
`if zbx_event:` test at line 740 is always true and
`int(zbx_event.get("clock"))` raises `TypeError` when the `clock` key is
absent (the mock event). -/
def composeActiveMsg (cfg : Config) (env : Env) (i : MappingEntry) (trigger : Trigger)
    (zbx_event : ZbxEvent) (inc_msg0 : String) : Except PyError String :=
  let stage1 : Except PyError String :=
    if inc_msg0 = "" ∧ cfg.investigating_tmpl ≠ "" then
      match zbx_event.clock with
      | none => .error .typeError
      | some clk =>
        .ok (pyFormat cfg.investigating_tmpl
          [("group", i.group_name.getD ""), ("component", i.component_name),
           ("time", env.fmtClock clk), ("trigger_description", trigger.comments),
           ("trigger_name", trigger.description)])
    else .ok inc_msg0
  stage1.map (fun m1 =>
    if m1 = "" ∧ trigger.comments ≠ "" then trigger.comments
    else if m1 = "" then trigger.description
    else m1)

/-- The resolution message built at lines 677-691: the rendered resolving
template (when configured) prefixed onto the unresolved incident's prior
message. -/
def resolutionMessageCode (cfg : Config) (env : Env) (prior : String) : String :=
  if cfg.resolving_tmpl ≠ "" then
    pyFormat cfg.resolving_tmpl [("time", env.nowStr)] ++ prior
  else prior

/-- The event actually used by the active branch: the fetched one, or the mock
when `zapi.get_event` returned nothing (lines 704-715). -/
def eventOrMock (event? : Option ZbxEvent) : ZbxEvent :=
  match event? with
  | some e => e
  | none => mockEvent

/-- Incident status and acknowledgment-accumulated message for an active
trigger (lines 716-731): `IDENTIFIED` with the merged acknowledgment blocks
when the event is acknowledged, else `INVESTIGATING` with the initial empty
message. -/
def activeIncStatusMsg (cfg : Config) (env : Env) (zbx_event : ZbxEvent) : Int × String :=
  if zbx_event.acknowledged = "1" then
    (CachetIncidentStatus.IDENTIFIED.value, ackMergeMsg cfg env zbx_event.acknowledges)
  else
    (CachetIncidentStatus.INVESTIGATING.value, "")

/-- The inactive-trigger branch (lines 666-702): no-op when the component is
already OPERATIONAL; otherwise mark the unresolved incident Fixed with the
resolution message and set the component OPERATIONAL, or — when the lookup
returned the sentinel — just set the component OPERATIONAL. -/
def inactiveBranch (cfg : Config) (env : Env) (st : CachetState) (i : MappingEntry) :
    Except PyError CachetState :=
  match get_component_status_value st i.component_id with
  | none => .error .systemExit
  | some component_status =>
    if component_status = 1 then .ok st
    else
      let last_inc := get_unresolved_incident st.incidents i.component_id
      if last_inc.id ≠ 0 then
        let prior := (get_unresolved_incident st.incidents i.component_id).message
        let inc_msg := resolutionMessageCode cfg env prior
        upd_incident st last_inc.id ⟨some inc_msg, some 4, some i.component_id, some 1⟩
      else
        upd_components st i.component_id 1

/-- The active-trigger branch (lines 703-783), with `zbx_event` already
defaulted to the mock.  Compute incident status and message, the component
status from the priority, compose the message, then create, update, or skip
according to the status value of the unresolved-incident lookup. -/
def activeBranch (cfg : Config) (env : Env) (trigger : Trigger) (zbx_event : ZbxEvent)
    (st : CachetState) (i : MappingEntry) : Except PyError CachetState :=
  let inc_name0 := trigger.description
  let inc_status := (activeIncStatusMsg cfg env zbx_event).1
  let inc_msg0 := (activeIncStatusMsg cfg env zbx_event).2
  match computeCompStatusCode trigger.priority with
  | .error e => .error e
  | .ok comp_status =>
    match composeActiveMsg cfg env i trigger zbx_event inc_msg0 with
    | .error e => .error e
    | .ok inc_msg =>
      let inc_name := match i.group_name with
        | some g => g ++ " | " ++ inc_name0
        | none => inc_name0
      let last_inc := get_unresolved_incident st.incidents i.component_id
      if last_inc.statusValue = -1 then
        new_incidents st inc_name inc_msg inc_status i.component_id comp_status
      else if last_inc.statusValue ≠ -1 ∧ last_inc.statusValue ≠ 4 then
        if pyStrip last_inc.message ≠ pyStrip inc_msg then
          upd_incident st last_inc.id ⟨some inc_msg, some inc_status, none, some comp_status⟩
        else .ok st
      else .ok st

/-- One iteration of the `triggers_watcher` loop (lines 650-788) for a single
mapping entry.  `trigger?` is the result of `zapi.get_trigger` (`none` models
the empty dict returned on failure, which lacks the `value` key), `event?` the
result of `zapi.get_event` (`none` models the empty/falsy result).  `continue`
paths return the state unchanged; raised exceptions become `.error`. -/
def processEntry (cfg : Config) (env : Env) (trigger? : Option Trigger)
    (event? : Option ZbxEvent) (st : CachetState) (i : MappingEntry) :
    Except PyError CachetState :=
  match i.triggerid with
  | none => .ok st
  | some _ =>
    match trigger? with
    | none => .ok st
    | some trigger =>
      if trigger.value = "0" then
        inactiveBranch cfg env st i
      else if trigger.value = "1" then
        activeBranch cfg env trigger (eventOrMock event?) st i
      else .ok st

/-! ### Watcher supervisor (`__main__` outer loop, lines 1066-1103) -/

/-- The observable supervisor actions of one outer cycle: `event.set()`, the
busy-wait until the worker thread has died, and starting the fresh thread. -/
inductive SupAction where
  | cancelSignal | joinWait | startTask
  deriving DecidableEq

/-- One outer cycle (lines 1073-1102) as a function of the currently bound
snapshot `prev` and the freshly synced candidate `cand`.  The initial Python
value of the bound snapshot is the falsy `""`, modelled as `[]` (a bound
snapshot is never the empty list otherwise).  `none` models `sys.exit(1)` on
a first-run empty mapping; otherwise the result is the snapshot bound after
the cycle together with the restart actions performed, in order. -/
def outerCycle (prev cand : List MappingEntry) :
    Option (List MappingEntry × List SupAction) :=
  match (if cand.isEmpty then (if prev.isEmpty then none else some prev) else some cand) with
  | none => none
  | some candNew =>
    if prev ≠ candNew then
      some (candNew, [SupAction.cancelSignal, SupAction.joinWait, SupAction.startTask])
    else
      some (candNew, [])

/-! ### Concrete fixtures used by the closed theorems and witnesses -/

/-- The default acknowledgement template `acknowledgement_tmpl_d` (line 1030). -/
def acknowledgementTmplDefault : String :=
  "\x7bmessage\x7d\n\n###### \x7back_time\x7d by \x7bauthor\x7d\n\n______\n"

/-- Configuration with no resolving and no investigating template. -/
def cfgPlain : Config := ⟨"", "", acknowledgementTmplDefault⟩

/-- Configuration with a non-empty investigating template. -/
def cfgInvTmpl : Config :=
  ⟨"", "Investigating \x7bcomponent\x7d at \x7btime\x7d", acknowledgementTmplDefault⟩

/-- Configuration with a non-empty resolving template. -/
def cfgResolve : Config :=
  ⟨"RESOLVED at \x7btime\x7d | ", "", acknowledgementTmplDefault⟩

def envT : Env := ⟨fun _ => "T", "NOW"⟩

def trigActive4 : Trigger := ⟨"1", 4, "the comments", "desc"⟩

def trigActive3 : Trigger := ⟨"1", 3, "the comments", "desc"⟩

def trigInactive : Trigger := ⟨"0", 4, "the comments", "desc"⟩

def evUnacked : Option ZbxEvent := some ⟨"0", some 100, []⟩

def entryPlain : MappingEntry := ⟨some "10", 1, "comp", none⟩

/-- Component 1 degraded, one unresolved incident whose stored message differs
from the message the engine will compute. -/
def stOneInc : CachetState :=
  ⟨[⟨1, "comp", 0, 3⟩], [⟨5, 1, "incname", "old message", 1⟩]⟩

/-- Same, but the stored message equals the computed one up to stripping. -/
def stEqMsg : CachetState :=
  ⟨[⟨1, "comp", 0, 3⟩], [⟨5, 1, "incname", " the comments ", 1⟩]⟩

/-- Component 1 degraded, no incidents at all. -/
def stNoInc : CachetState := ⟨[⟨1, "comp", 0, 3⟩], []⟩

/-- Component 1 degraded, one incident already Fixed (status 4) whose message
lacks the resolution marker, so the lookup still returns it. -/
def stFixedInc : CachetState :=
  ⟨[⟨1, "comp", 0, 3⟩], [⟨5, 1, "incname", "old message", 4⟩]⟩

/-- A Fixed incident whose message lacks the resolution marker. -/
def fixedNoMarker : Incident := ⟨7, 3, "db", "db is down", 4⟩

def compShadow1 : Component := ⟨10, "web", 1, 1⟩

def compShadow2 : Component := ⟨20, "web", 2, 1⟩

def compsFix : List Component := [⟨10, "web", 1, 1⟩]

def groupsFix : List ComponentGroup := [⟨3, "g"⟩]

def entrySup : MappingEntry := ⟨some "1", 1, "c", none⟩

/-! ### Helper lemmas -/

/-- Membership in a pointwise conditional update of a list: every element of
the result is either the update of an element satisfying the condition, or an
untouched element not satisfying it. -/
theorem mem_map_ite {α : Type} {l : List α} {p : α → Bool} {f : α → α} {x : α}
    (h : x ∈ l.map (fun a => if p a then f a else a)) :
    (∃ a, a ∈ l ∧ p a = true ∧ x = f a) ∨ (x ∈ l ∧ p x = false) := by
  rcases List.mem_map.mp h with ⟨a, ha, hax⟩
  by_cases hp : p a = true
  · exact Or.inl ⟨a, ha, hp, by rw [← hax, if_pos hp]⟩
  · have hx : x = a := by rw [← hax, if_neg hp]
    subst hx
    exact Or.inr ⟨ha, by simpa using hp⟩

/-- A non-sentinel result of the unresolved-incident lookup is an element of
the incident table. -/
theorem get_unresolved_incident_mem (incs : List Incident) (cid : Nat)
    (h : (get_unresolved_incident incs cid).id ≠ 0) :
    get_unresolved_incident incs cid ∈ incs := by
  revert h
  unfold get_unresolved_incident
  cases hf : incs.find? (fun inc =>
      inc.component_id == cid && !(strContains inc.message "__Resolved__")) with
  | none => intro h; simp [incidentSentinel] at h
  | some inc => intro _; exact List.mem_of_find?_eq_some hf

/-- Behaviour of `upd_components` when the component exists: it succeeds, the
incident table is untouched, the targeted component exists and carries the new
status, and every other component is unchanged. -/
theorem upd_components_spec (st : CachetState) (cid : Nat) (status : Int) (c0 : Component)
    (hfind : st.components.find? (fun c => c.id == cid) = some c0) :
    ∃ st', upd_components st cid status = .ok st'
      ∧ st'.incidents = st.incidents
      ∧ (∃ c, c ∈ st'.components ∧ c.id = cid)
      ∧ (∀ c ∈ st'.components, c.id = cid → c.status = status)
      ∧ (∀ c ∈ st'.components, c.id ≠ cid → c ∈ st.components) := by
  have hc0mem : c0 ∈ st.components := List.mem_of_find?_eq_some hfind
  have hc0id : c0.id = cid := by simpa using List.find?_some hfind
  refine ⟨{ st with components := st.components.map (fun c =>
      if c.id == cid then { c with status := status } else c) }, ?_, rfl, ?_, ?_, ?_⟩
  · simp [upd_components, hfind]
  · exact ⟨{ c0 with status := status },
      List.mem_map.mpr ⟨c0, hc0mem, by simp [hc0id]⟩, hc0id⟩
  · intro c hmem hid
    rcases mem_map_ite hmem with ⟨a, _, _, hxa⟩ | ⟨_, hpf⟩
    · subst hxa; rfl
    · exact absurd hid (by simpa using hpf)
  · intro c hmem hid
    rcases mem_map_ite hmem with ⟨a, _, hpa, hxa⟩ | ⟨hmem', _⟩
    · exfalso
      apply hid
      subst hxa
      simpa using hpa
    · exact hmem'

/-- Behaviour of `upd_incident` when called with all four keyword arguments and
an existing target component: the PUT rewrites the targeted incident's message
and status, leaves all other incidents alone, and the component update sets the
component's status. -/
theorem upd_incident_full_spec (st : CachetState) (iid : Nat) (msg : String) (stat : Int)
    (cid : Nat) (cstat : Int) (c0 : Component) (inc0 : Incident)
    (hfind : st.components.find? (fun c => c.id == cid) = some c0)
    (hmem0 : inc0 ∈ st.incidents) (hid0 : inc0.id = iid) :
    ∃ st', upd_incident st iid ⟨some msg, some stat, some cid, some cstat⟩ = .ok st'
      ∧ (∃ inc, inc ∈ st'.incidents ∧ inc.id = iid)
      ∧ (∀ inc ∈ st'.incidents, inc.id = iid → inc.statusValue = stat ∧ inc.message = msg)
      ∧ (∀ inc ∈ st'.incidents, inc.id ≠ iid → inc ∈ st.incidents)
      ∧ (∃ c, c ∈ st'.components ∧ c.id = cid)
      ∧ (∀ c ∈ st'.components, c.id = cid → c.status = cstat)
      ∧ (∀ c ∈ st'.components, c.id ≠ cid → c ∈ st.components) := by
  have hc0mem : c0 ∈ st.components := List.mem_of_find?_eq_some hfind
  have hc0id : c0.id = cid := by simpa using List.find?_some hfind
  refine ⟨{ components := st.components.map (fun c =>
              if c.id == cid then { c with status := cstat } else c),
            incidents := st.incidents.map (fun inc =>
              if inc.id == iid then applyIncUpd inc ⟨some msg, some stat, some cid, some cstat⟩
              else inc) }, ?_, ?_, ?_, ?_, ?_, ?_, ?_⟩
  · simp [upd_incident, upd_components, hfind]
  · exact ⟨applyIncUpd inc0 ⟨some msg, some stat, some cid, some cstat⟩,
      List.mem_map.mpr ⟨inc0, hmem0, by simp [hid0]⟩, by simp [applyIncUpd, hid0]⟩
  · intro inc hmem hid
    rcases mem_map_ite hmem with ⟨a, _, _, hxa⟩ | ⟨_, hpf⟩
    · subst hxa; exact ⟨rfl, rfl⟩
    · exact absurd hid (by simpa using hpf)
  · intro inc hmem hid
    rcases mem_map_ite hmem with ⟨a, _, hpa, hxa⟩ | ⟨hmem', _⟩
    · exfalso
      apply hid
      subst hxa
      simpa [applyIncUpd] using hpa
    · exact hmem'
  · exact ⟨{ c0 with status := cstat },
      List.mem_map.mpr ⟨c0, hc0mem, by simp [hc0id]⟩, hc0id⟩
  · intro c hmem hid
    rcases mem_map_ite hmem with ⟨a, _, _, hxa⟩ | ⟨_, hpf⟩
    · subst hxa; rfl
    · exact absurd hid (by simpa using hpf)
  · intro c hmem hid
    rcases mem_map_ite hmem with ⟨a, _, hpa, hxa⟩ | ⟨hmem', _⟩
    · exfalso
      apply hid
      subst hxa
      simpa using hpa
    · exact hmem'

/-! ### Claim theorems -/

/-- Claim C5: the status mapper is a total deterministic function (it is a Lean
function), returning OPERATIONAL for OK, UNKNOWN for NOT_CLASSIFIED,
OPERATIONAL for INFORMATION, PERFORMANCE_ISSUES for WARNING, PARTIAL_OUTAGE
for AVERAGE, MAJOR_OUTAGE for HIGH, MAJOR_OUTAGE for DISASTER, and UNKNOWN for
any other input (the `none` case). -/
theorem status_mapper_table :
    map_zabbix_status_to_cachet_status (some .OK) = CachetComponentStatus.OPERATIONAL.value
  ∧ map_zabbix_status_to_cachet_status (some .NOT_CLASSIFIED)
      = CachetComponentStatus.UNKNOWN.value
  ∧ map_zabbix_status_to_cachet_status (some .INFORMATION)
      = CachetComponentStatus.OPERATIONAL.value
  ∧ map_zabbix_status_to_cachet_status (some .WARNING)
      = CachetComponentStatus.PERFORMANCE_ISSUES.value
  ∧ map_zabbix_status_to_cachet_status (some .AVERAGE)
      = CachetComponentStatus.PARTIAL_OUTAGE.value
  ∧ map_zabbix_status_to_cachet_status (some .HIGH) = CachetComponentStatus.MAJOR_OUTAGE.value
  ∧ map_zabbix_status_to_cachet_status (some .DISASTER)
      = CachetComponentStatus.MAJOR_OUTAGE.value
  ∧ map_zabbix_status_to_cachet_status none = CachetComponentStatus.UNKNOWN.value := by
  decide

/-- Claim C1 (code bug): for an active trigger the code maps priority ≥ HIGH (4)
to MAJOR_OUTAGE as claimed, but for priority AVERAGE (3) and for every lower
priority it raises AttributeError instead of producing PARTIAL_OUTAGE /
PERFORMANCE_ISSUES, because those two names are read off the
`CachetIncidentStatus` enum, which has no such members; the mapping entry
therefore does not complete.  The last conjunct runs the full engine on an
active priority-3 trigger and shows the raise. -/
theorem priority_mapping_crashes_below_high :
    computeCompStatusCode 5 = .ok CachetComponentStatus.MAJOR_OUTAGE.value
  ∧ computeCompStatusCode 4 = .ok CachetComponentStatus.MAJOR_OUTAGE.value
  ∧ computeCompStatusCode 3 = .error (.attributeError "PARTIAL_OUTAGE")
  ∧ computeCompStatusCode 2 = .error (.attributeError "PERFORMANCE_ISSUES")
  ∧ computeCompStatusCode 1 = .error (.attributeError "PERFORMANCE_ISSUES")
  ∧ computeCompStatusCode 0 = .error (.attributeError "PERFORMANCE_ISSUES")
  ∧ processEntry cfgPlain envT (some trigActive3) evUnacked stOneInc entryPlain
      = .error (.attributeError "PARTIAL_OUTAGE") := by
  decide

/-- Claim C2 (code bug): with an existing unresolved incident, a computed
message equal to the stored one (after stripping) causes no write, as claimed;
but when the messages differ the engine calls `upd_incident` without a
`component_id` keyword, and `upd_incident`'s component-update guard evaluates
`params["component_id"]`, raising KeyError — so the update does not complete
and the component status is never set. -/
theorem debounced_update_raises_keyerror :
    processEntry cfgPlain envT (some trigActive4) evUnacked stEqMsg entryPlain = .ok stEqMsg
  ∧ processEntry cfgPlain envT (some trigActive4) evUnacked stOneInc entryPlain
      = .error (.keyError "component_id") := by
  decide

/-- Claim C4 (code bug): when the monitoring client returns no event, the mock
event the engine synthesizes is a non-empty dict without a `clock` key, so with
a non-empty investigating template the composition evaluates `int(None)` and
raises TypeError instead of completing; only with no investigating template
does the entry complete (falling through to trigger comments). -/
theorem placeholder_event_template_crash :
    processEntry cfgInvTmpl envT (some trigActive4) none stNoInc entryPlain
      = .error .typeError
  ∧ processEntry cfgPlain envT (some trigActive4) none stNoInc entryPlain
      = .ok ⟨[⟨1, "comp", 0, 4⟩], [⟨1, 1, "desc", "the comments", 1⟩]⟩ := by
  decide

/-- Claim C3, counterexample: the unresolved-incident lookup returns an
incident whose status value is Fixed (4), because it matches only on the
component id and the absence of the `__Resolved__` marker — refuting "returns
an incident only if ... its status is not Fixed". -/
theorem lookup_returns_fixed_incident :
    get_unresolved_incident [fixedNoMarker] 3 = fixedNoMarker
  ∧ fixedNoMarker.statusValue = CachetIncidentStatus.FIXED.value
  ∧ strContains fixedNoMarker.message "__Resolved__" = false
  ∧ fixedNoMarker ≠ incidentSentinel := by
  decide

/-- Claim C3, amended: the lookup returns the sentinel (id 0, status value -1)
exactly when no incident has the component id and a marker-free message;
otherwise it returns an incident from the table with matching component id and
marker-free message — with no condition on the incident's status. -/
theorem unresolved_incident_lookup_characterization (incs : List Incident) (cid : Nat) :
    incidentSentinel.id = 0 ∧ incidentSentinel.statusValue = -1
  ∧ ((get_unresolved_incident incs cid = incidentSentinel
        ∧ ∀ inc ∈ incs,
            ¬(inc.component_id = cid ∧ strContains inc.message "__Resolved__" = false))
     ∨ (get_unresolved_incident incs cid ∈ incs
        ∧ (get_unresolved_incident incs cid).component_id = cid
        ∧ strContains (get_unresolved_incident incs cid).message "__Resolved__" = false)) := by
  refine ⟨rfl, rfl, ?_⟩
  unfold get_unresolved_incident
  cases hf : incs.find? (fun inc =>
      inc.component_id == cid && !(strContains inc.message "__Resolved__")) with
  | none =>
    left
    refine ⟨rfl, ?_⟩
    intro inc hmem hprop
    have hnone := List.find?_eq_none.mp hf inc hmem
    apply hnone
    simp [hprop.1, hprop.2]
  | some inc =>
    right
    have hp := List.find?_some hf
    have hmem := List.mem_of_find?_eq_some hf
    simp only [Bool.and_eq_true, beq_iff_eq, Bool.not_eq_true'] at hp
    exact ⟨hmem, hp.1, hp.2⟩

/-- Claim C9, counterexample: a component named "web" exists in group 2, yet
creating ("web", group 2) issues a create call and returns a fresh record,
because the name search returns the first "web" (in group 1) and only that
record's group is checked; the resulting table holds two ("web", group 2)
components, so a repeated run over unchanged input duplicates. -/
theorem component_create_duplicates_shadowed_name :
    compShadow2 ∈ [compShadow1, compShadow2]
  ∧ compShadow2.name = "web" ∧ compShadow2.group_id = 2
  ∧ (new_components [compShadow1, compShadow2] "web" 2 1).2.2 = true
  ∧ (new_components [compShadow1, compShadow2] "web" 2 1).1 ≠ compShadow2
  ∧ ((new_components [compShadow1, compShadow2] "web" 2 1).2.1.filter
       (fun c => c.name == "web" && c.group_id == 2)).length = 2 := by
  decide

/-- Claim C9, amended: creation returns the existing record and issues no
create call when the first component found by name is real and already carries
the requested group id (name-only search, first match's group checked); a
component group is never recreated when a real group with that name is found.
Under unchanged input with component names unique across groups this makes
repeated runs duplicate-free. -/
theorem search_before_create_guarded :
    (∀ (comps : List Component) (name : String) (gid : Nat) (status : Int),
      (find_component_by_name comps name).id ≠ 0 →
      (find_component_by_name comps name).group_id = gid →
      new_components comps name gid status = (find_component_by_name comps name, comps, false))
  ∧ (∀ (groups : List ComponentGroup) (name : String),
      (find_group_by_name groups name).id ≠ 0 →
      new_components_gr groups name = (find_group_by_name groups name, groups, false)) := by
  constructor
  · intro comps name gid status h1 h2
    unfold new_components
    rw [if_pos ⟨h1, h2⟩]
  · intro groups name h1
    unfold new_components_gr
    rw [if_neg h1]

/-- Witness for the amended C9 theorem at a concrete table. -/
theorem search_before_create_guarded_witness :
    (find_component_by_name compsFix "web").id ≠ 0
  ∧ (find_component_by_name compsFix "web").group_id = 1
  ∧ new_components compsFix "web" 1 5 = (find_component_by_name compsFix "web", compsFix, false)
  ∧ (find_group_by_name groupsFix "g").id ≠ 0
  ∧ new_components_gr groupsFix "g" = (find_group_by_name groupsFix "g", groupsFix, false) :=
  ⟨by decide, by decide,
   search_before_create_guarded.1 compsFix "web" 1 5 (by decide) (by decide),
   by decide,
   search_before_create_guarded.2 groupsFix "g" (by decide)⟩

/-- Claim C7: on an outer cycle with a non-empty candidate, an equal bound
snapshot leaves the running task untouched (no actions), while a differing one
performs exactly one stop/restart cycle — signal cancellation, wait for the
old task to die, bind the candidate, start one fresh task. -/
theorem supervisor_restart_decision (prev cand : List MappingEntry) (hne : cand ≠ []) :
    (prev = cand → outerCycle prev cand = some (prev, []))
  ∧ (prev ≠ cand →
      outerCycle prev cand =
        some (cand, [SupAction.cancelSignal, SupAction.joinWait, SupAction.startTask])) := by
  have hc : cand.isEmpty = false := by
    cases cand with
    | nil => exact absurd rfl hne
    | cons a l => rfl
  constructor
  · intro h
    subst h
    simp [outerCycle, hc]
  · intro h
    simp [outerCycle, hc, h]

/-- Witness for C7 at concrete snapshots. -/
theorem supervisor_restart_decision_witness :
    ([entrySup] : List MappingEntry) ≠ []
  ∧ (([] : List MappingEntry) = [entrySup] → outerCycle [] [entrySup] = some ([], []))
  ∧ (([] : List MappingEntry) ≠ [entrySup] →
      outerCycle [] [entrySup] =
        some ([entrySup], [SupAction.cancelSignal, SupAction.joinWait, SupAction.startTask])) :=
  ⟨by decide,
   (supervisor_restart_decision [] [entrySup] (by decide)).1,
   (supervisor_restart_decision [] [entrySup] (by decide)).2⟩

/-- Claim C8: an empty candidate with a non-empty prior snapshot keeps the
prior snapshot bound and performs no restart action; an empty candidate on the
first run (no prior snapshot) is fatal — the cycle ends in `sys.exit(1)`,
modelled as `none`. -/
theorem supervisor_empty_candidate (prev : List MappingEntry) :
    (prev ≠ [] → outerCycle prev [] = some (prev, []))
  ∧ outerCycle [] [] = none := by
  constructor
  · intro h
    have hp : prev.isEmpty = false := by
      cases prev with
      | nil => exact absurd rfl h
      | cons a l => rfl
    simp [outerCycle, hp]
  · rfl

/-- Witness for C8 at concrete snapshots. -/
theorem supervisor_empty_candidate_witness :
    ([entrySup] : List MappingEntry) ≠ []
  ∧ outerCycle [entrySup] [] = some ([entrySup], [])
  ∧ outerCycle [] [] = none :=
  ⟨by decide,
   (supervisor_empty_candidate [entrySup]).1 (by decide),
   (supervisor_empty_candidate []).2⟩

/-- Claim C6: for an inactive trigger — when the component already reads
OPERATIONAL, nothing is written; when an unresolved incident is found, it is
set to Fixed with the resolution message (the rendered resolving template, when
configured, prefixed onto the prior message) and the component is set
OPERATIONAL; when the lookup returns the sentinel, only the component is set
OPERATIONAL and the incident table is untouched. -/
theorem inactive_trigger_resolution (cfg : Config) (env : Env) (ev : Option ZbxEvent)
    (st : CachetState) (i : MappingEntry) (tid : String) (trigger : Trigger) (s : Int)
    (htid : i.triggerid = some tid) (hval : trigger.value = "0")
    (hcomp : get_component_status_value st i.component_id = some s) :
    (s = 1 → processEntry cfg env (some trigger) ev st i = .ok st)
  ∧ (s ≠ 1 → (get_unresolved_incident st.incidents i.component_id).id = 0 →
      ∃ st', processEntry cfg env (some trigger) ev st i = .ok st'
        ∧ st'.incidents = st.incidents
        ∧ (∃ c, c ∈ st'.components ∧ c.id = i.component_id)
        ∧ (∀ c ∈ st'.components, c.id = i.component_id →
             c.status = CachetComponentStatus.OPERATIONAL.value)
        ∧ (∀ c ∈ st'.components, c.id ≠ i.component_id → c ∈ st.components))
  ∧ (s ≠ 1 → (get_unresolved_incident st.incidents i.component_id).id ≠ 0 →
      ∃ st', processEntry cfg env (some trigger) ev st i = .ok st'
        ∧ (∃ inc, inc ∈ st'.incidents
             ∧ inc.id = (get_unresolved_incident st.incidents i.component_id).id)
        ∧ (∀ inc ∈ st'.incidents,
             inc.id = (get_unresolved_incident st.incidents i.component_id).id →
             inc.statusValue = CachetIncidentStatus.FIXED.value
             ∧ inc.message = resolutionMessageCode cfg env
                 (get_unresolved_incident st.incidents i.component_id).message)
        ∧ (∀ inc ∈ st'.incidents,
             inc.id ≠ (get_unresolved_incident st.incidents i.component_id).id →
             inc ∈ st.incidents)
        ∧ (∃ c, c ∈ st'.components ∧ c.id = i.component_id)
        ∧ (∀ c ∈ st'.components, c.id = i.component_id →
             c.status = CachetComponentStatus.OPERATIONAL.value)
        ∧ (∀ c ∈ st'.components, c.id ≠ i.component_id → c ∈ st.components)) := by
  obtain ⟨c0, hfind, hcs⟩ := Option.map_eq_some'.mp hcomp
  have hpe : processEntry cfg env (some trigger) ev st i = inactiveBranch cfg env st i := by
    simp [processEntry, htid, hval]
  refine ⟨?_, ?_, ?_⟩
  · intro hs
    rw [hpe]
    simp [inactiveBranch, get_component_status_value, hfind, hcs, hs]
  · intro hs hL
    have hrun : inactiveBranch cfg env st i = upd_components st i.component_id 1 := by
      simp [inactiveBranch, get_component_status_value, hfind, hcs, hs, hL]
    obtain ⟨st', heq, hincs, hex, hall, hother⟩ :=
      upd_components_spec st i.component_id 1 c0 hfind
    exact ⟨st', by rw [hpe, hrun, heq], hincs, hex, hall, hother⟩
  · intro hs hL
    have hrun : inactiveBranch cfg env st i =
        upd_incident st (get_unresolved_incident st.incidents i.component_id).id
          ⟨some (resolutionMessageCode cfg env
              (get_unresolved_incident st.incidents i.component_id).message),
           some 4, some i.component_id, some 1⟩ := by
      simp [inactiveBranch, get_component_status_value, hfind, hcs, hs, hL]
    obtain ⟨st', heq, hex, hall, hother, hcex, hcall, hcother⟩ :=
      upd_incident_full_spec st (get_unresolved_incident st.incidents i.component_id).id
        (resolutionMessageCode cfg env
          (get_unresolved_incident st.incidents i.component_id).message)
        4 i.component_id 1 c0 (get_unresolved_incident st.incidents i.component_id)
        hfind (get_unresolved_incident_mem st.incidents i.component_id hL) rfl
    exact ⟨st', by rw [hpe, hrun, heq], hex, hall, hother, hcex, hcall, hcother⟩

/-- Witness for C6 at a concrete state exercising all three implications. -/
theorem inactive_trigger_resolution_witness :
    entryPlain.triggerid = some "10"
  ∧ trigInactive.value = "0"
  ∧ get_component_status_value stOneInc entryPlain.component_id = some 3
  ∧ (((3 : Int) = 1 →
        processEntry cfgResolve envT (some trigInactive) none stOneInc entryPlain
          = .ok stOneInc)
     ∧ ((3 : Int) ≠ 1 →
          (get_unresolved_incident stOneInc.incidents entryPlain.component_id).id = 0 →
          ∃ st', processEntry cfgResolve envT (some trigInactive) none stOneInc entryPlain
              = .ok st'
            ∧ st'.incidents = stOneInc.incidents
            ∧ (∃ c, c ∈ st'.components ∧ c.id = entryPlain.component_id)
            ∧ (∀ c ∈ st'.components, c.id = entryPlain.component_id →
                 c.status = CachetComponentStatus.OPERATIONAL.value)
            ∧ (∀ c ∈ st'.components, c.id ≠ entryPlain.component_id →
                 c ∈ stOneInc.components))
     ∧ ((3 : Int) ≠ 1 →
          (get_unresolved_incident stOneInc.incidents entryPlain.component_id).id ≠ 0 →
          ∃ st', processEntry cfgResolve envT (some trigInactive) none stOneInc entryPlain
              = .ok st'
            ∧ (∃ inc, inc ∈ st'.incidents
                 ∧ inc.id = (get_unresolved_incident stOneInc.incidents
                     entryPlain.component_id).id)
            ∧ (∀ inc ∈ st'.incidents,
                 inc.id = (get_unresolved_incident stOneInc.incidents
                     entryPlain.component_id).id →
                 inc.statusValue = CachetIncidentStatus.FIXED.value
                 ∧ inc.message = resolutionMessageCode cfgResolve envT
                     (get_unresolved_incident stOneInc.incidents
                       entryPlain.component_id).message)
            ∧ (∀ inc ∈ st'.incidents,
                 inc.id ≠ (get_unresolved_incident stOneInc.incidents
                     entryPlain.component_id).id →
                 inc ∈ stOneInc.incidents)
            ∧ (∃ c, c ∈ st'.components ∧ c.id = entryPlain.component_id)
            ∧ (∀ c ∈ st'.components, c.id = entryPlain.component_id →
                 c.status = CachetComponentStatus.OPERATIONAL.value)
            ∧ (∀ c ∈ st'.components, c.id ≠ entryPlain.component_id →
                 c ∈ stOneInc.components))) :=
  ⟨rfl, rfl, rfl,
   inactive_trigger_resolution cfgResolve envT none stOneInc entryPlain "10" trigInactive 3
     rfl rfl rfl⟩

/-- Claim C10: for an active trigger, when the unresolved-incident lookup
returns an incident whose status value is Fixed (4), the entry performs neither
an incident creation nor an incident update — it either completes with the
state untouched or aborts with a raised exception before reaching the incident
decision (creation requires lookup status -1, update requires status outside
both -1 and 4). -/
theorem fixed_status_lookup_skips_writes (cfg : Config) (env : Env) (trigger : Trigger)
    (ev : Option ZbxEvent) (st : CachetState) (i : MappingEntry) (tid : String)
    (htid : i.triggerid = some tid) (hval : trigger.value = "1")
    (hfix : (get_unresolved_incident st.incidents i.component_id).statusValue = 4) :
    processEntry cfg env (some trigger) ev st i = .ok st
  ∨ ∃ e, processEntry cfg env (some trigger) ev st i = .error e := by
  have hpe : processEntry cfg env (some trigger) ev st i
      = activeBranch cfg env trigger (eventOrMock ev) st i := by
    simp [processEntry, htid, hval]
  rw [hpe]
  generalize eventOrMock ev = z
  cases hcs : computeCompStatusCode trigger.priority with
  | error e =>
    exact Or.inr ⟨e, by simp [activeBranch, hcs]⟩
  | ok v =>
    cases hcm : composeActiveMsg cfg env i trigger z (activeIncStatusMsg cfg env z).2 with
    | error e =>
      exact Or.inr ⟨e, by simp [activeBranch, hcs, hcm]⟩
    | ok m =>
      left
      simp [activeBranch, hcs, hcm, hfix]

/-- Witness for C10 at a concrete state with a marker-free Fixed incident. -/
theorem fixed_status_lookup_skips_writes_witness :
    entryPlain.triggerid = some "10"
  ∧ trigActive4.value = "1"
  ∧ (get_unresolved_incident stFixedInc.incidents entryPlain.component_id).statusValue = 4
  ∧ (processEntry cfgPlain envT (some trigActive4) evUnacked stFixedInc entryPlain
        = .ok stFixedInc
     ∨ ∃ e, processEntry cfgPlain envT (some trigActive4) evUnacked stFixedInc entryPlain
        = .error e) :=
  ⟨rfl, rfl, by decide,
   fixed_status_lookup_skips_writes cfgPlain envT trigActive4 evUnacked stFixedInc entryPlain
     "10" rfl rfl (by decide)⟩

end ZabbixCachet
